import Mathlib

/-!
Shallow embedding of the persistent delivery queue of
`telegram-bot-reminder-api.ai` (files `src/db/database.go` and
`src/main.go`) and proofs about the spec's claims.

Modelling conventions:
* SQLite integers (`int64`, unix timestamps, `num_tries`) become `Int`.
* A `null`-able column (`delivered_on`) becomes `Option Int`.
* The two tables (`queue`, `logs`) live in one `Database` structure, in
  insertion order; `autoincrement` primary keys are modelled by the
  `nextQueueId` / `nextLogId` counters.
* Statement-preparation or query failure is modelled by a `stmtErr : Bool`
  argument: when it is `true` the operation takes its error branch exactly
  as the Go code does (read operations return the initially allocated empty
  slice, mutations leave the store unchanged and return `false`).
* `time.Now()` is passed in explicitly as a `now : Int` argument.
-/

/-- A row of the `queue` table, per the schema created in `OpenDb`:
`id integer primary key autoincrement, chat_id integer not null,
message text not null, enqueued_on integer default (strftime(...,'now')),
fire_on integer not null, delivered_on integer default null,
num_tries integer default 0`.  Note that the only uniqueness constraint in
this schema is the `id` primary key: `idx_queue1` .. `idx_queue5` are plain
(non-unique) indexes. -/
structure Row where
  id : Int
  chatId : Int
  message : String
  enqueuedOn : Int
  fireOn : Int
  deliveredOn : Option Int
  numTries : Int
deriving DecidableEq

/-- A row of the `logs` table (`id` autoincrement primary key, `type`,
`message`, `time`).  The only writer (`saveLog`) always supplies a non-null
`type`, so it is modelled as `String`. -/
structure LogRow where
  id : Int
  typ : String
  message : String
  time : Int
deriving DecidableEq

/-- The `Log` struct returned by `GetLogs` (fields `Type`, `Message`,
`Time`). -/
structure Log where
  type : String
  message : String
  time : Int
deriving DecidableEq

/-- The `QueueItem` struct scanned out of queue queries.  `DeliveredOn` is
an `Int` (not an `Option`) because the queries select
`ifnull(delivered_on, 0)` into a plain `int64`. -/
structure QueueItem where
  ID : Int
  ChatID : Int
  Message : String
  EnqueuedOn : Int
  FireOn : Int
  DeliveredOn : Int
  NumTries : Int
deriving DecidableEq

/-- The SQLite database behind the `Database` struct: the `queue` and
`logs` tables plus the autoincrement state of their primary keys. -/
structure Database where
  queue : List Row
  nextQueueId : Int
  logs : List LogRow
  nextLogId : Int
deriving DecidableEq

/-- `defaultMaxNumTries` from `src/db/database.go`. -/
def defaultMaxNumTries : Int := 10

/-- The `where id = ? and chat_id = ?` match used by the three
single-row mutations (`DeleteQueueItem`, `IncreaseNumTries`,
`MarkQueueItemAsDelivered`). -/
def matchKey (chatId queueID : Int) (r : Row) : Bool :=
  r.id == queueID && r.chatId == chatId

/-- The `where delivered_on is null and num_tries < ? and fire_on <= ?`
filter of `DeliverableQueueItems`. -/
def deliverableP (maxN now : Int) (r : Row) : Bool :=
  r.deliveredOn.isNone && decide (r.numTries < maxN) && decide (r.fireOn ≤ now)

/-- The `where chat_id = ? and delivered_on is null` filter of
`UndeliveredQueueItems`. -/
def undeliveredP (chatId : Int) (r : Row) : Bool :=
  r.chatId == chatId && r.deliveredOn.isNone

/-- `order by enqueued_on desc`: row `a` may precede row `b` when
`b.enqueuedOn ≤ a.enqueuedOn`. -/
def enqDesc (a b : Row) : Prop :=
  b.enqueuedOn ≤ a.enqueuedOn

instance : DecidableRel enqDesc :=
  fun a b => inferInstanceAs (Decidable (b.enqueuedOn ≤ a.enqueuedOn))

instance : IsTotal Row enqDesc :=
  ⟨fun a b => le_total b.enqueuedOn a.enqueuedOn⟩

instance : IsTrans Row enqDesc :=
  ⟨fun _ _ _ h1 h2 => le_trans h2 h1⟩

/-- `order by id desc` on the `logs` table. -/
def logIdDesc (a b : LogRow) : Prop :=
  b.id ≤ a.id

instance : DecidableRel logIdDesc :=
  fun a b => inferInstanceAs (Decidable (b.id ≤ a.id))

instance : IsTotal LogRow logIdDesc :=
  ⟨fun a b => le_total b.id a.id⟩

instance : IsTrans LogRow logIdDesc :=
  ⟨fun _ _ _ h1 h2 => le_trans h2 h1⟩

/-- SQLite `limit ?`: a negative limit means "no limit". -/
def sqlLimit (n : Int) (l : List α) : List α :=
  if n < 0 then l else l.take n.toNat

/-- Scanning one selected queue row into a `QueueItem`.  The queries of
`DeliverableQueueItems` and `UndeliveredQueueItems` select only
`id, chat_id, message, enqueued_on, fire_on, ifnull(delivered_on, 0)`;
`num_tries` is never selected or scanned, so `NumTries` keeps the Go
zero value `0`. -/
def rowToItem (r : Row) : QueueItem :=
  { ID := r.id
    ChatID := r.chatId
    Message := r.message
    EnqueuedOn := r.enqueuedOn
    FireOn := r.fireOn
    DeliveredOn := r.deliveredOn.getD 0
    NumTries := 0 }

/-- `saveLog` (reached via `Log`/`LogError`): inserts `(type, message)`
into `logs`, with `time` defaulting to the current unix time. -/
def saveLog (d : Database) (typ msg : String) (now : Int) (stmtErr : Bool) : Database :=
  if stmtErr then d
  else
    { d with
      logs := d.logs ++ [⟨d.nextLogId, typ, msg, now⟩]
      nextLogId := d.nextLogId + 1 }

/-- `GetLogs`: `select type, message, time from logs order by id desc
limit ?`.  On statement or query failure the initially allocated empty
slice is returned. -/
def GetLogs (d : Database) (latestN : Int) (stmtErr : Bool) : List Log :=
  let logs : List Log := []
  if stmtErr then logs
  else
    logs ++ (sqlLimit latestN (List.insertionSort logIdDesc d.logs)).map
      (fun l => ⟨l.typ, l.message, l.time⟩)

/-- `Enqueue`: `insert or ignore into queue(chat_id, message, fire_on)
values(?, ?, ?)`.  `enqueued_on` defaults to the current unix time,
`delivered_on` to null and `num_tries` to 0.  `or ignore` suppresses the
insert only on a uniqueness violation, and the only uniqueness constraint
of the `queue` schema is the autoincrement primary key `id` — there is no
unique index over `(chat_id, message, fire_on)`.  Returns `false` only on
a statement error. -/
def Enqueue (d : Database) (chatID : Int) (message : String) (fireOn : Int)
    (now : Int) (stmtErr : Bool) : Database × Bool :=
  if stmtErr then (d, false)
  else if d.queue.any (fun r => r.id == d.nextQueueId) then (d, true)
  else
    ({ d with
       queue := d.queue ++ [⟨d.nextQueueId, chatID, message, now, fireOn, none, 0⟩]
       nextQueueId := d.nextQueueId + 1 }, true)

/-- The rows selected by `DeliverableQueueItems` before scanning:
filtered by `deliverableP` (with the `maxNumTries <= 0` default applied)
and ordered by `enqueued_on desc`. -/
def deliverableRows (d : Database) (maxNumTries now : Int) : List Row :=
  let maxN := if maxNumTries ≤ 0 then defaultMaxNumTries else maxNumTries
  List.insertionSort enqDesc (d.queue.filter (deliverableP maxN now))

/-- `DeliverableQueueItems`: substitutes `defaultMaxNumTries` when
`maxNumTries <= 0`, then `select ... from queue where delivered_on is null
and num_tries < ? and fire_on <= ? order by enqueued_on desc`.  On
statement or query failure the initially allocated empty slice is
returned. -/
def DeliverableQueueItems (d : Database) (maxNumTries now : Int)
    (stmtErr : Bool) : List QueueItem :=
  let queue : List QueueItem := []
  if stmtErr then queue
  else queue ++ (deliverableRows d maxNumTries now).map rowToItem

/-- The rows selected by `UndeliveredQueueItems` before scanning. -/
def undeliveredRows (d : Database) (chatID : Int) : List Row :=
  List.insertionSort enqDesc (d.queue.filter (undeliveredP chatID))

/-- `UndeliveredQueueItems`: `select ... from queue where chat_id = ? and
delivered_on is null order by enqueued_on desc`.  On statement or query
failure the initially allocated empty slice is returned. -/
def UndeliveredQueueItems (d : Database) (chatID : Int)
    (stmtErr : Bool) : List QueueItem :=
  let queue : List QueueItem := []
  if stmtErr then queue
  else queue ++ (undeliveredRows d chatID).map rowToItem

/-- `DeleteQueueItem`: `delete from queue where id = ? and chat_id = ?`.
The Go function sets `result = true` whenever `stmt.Exec` returns no
error — unlike `IncreaseNumTries` and `MarkQueueItemAsDelivered` it never
consults `RowsAffected`, so a delete matching zero rows still yields
`true`. -/
def DeleteQueueItem (d : Database) (chatID queueID : Int)
    (stmtErr : Bool) : Database × Bool :=
  if stmtErr then (d, false)
  else
    ({ d with queue := d.queue.filter (fun r => !(matchKey chatID queueID r)) }, true)

/-- `IncreaseNumTries`: `update queue set num_tries = num_tries + 1 where
id = ? and chat_id = ?`; returns `true` only when the statement succeeded
and `RowsAffected > 0`. -/
def IncreaseNumTries (d : Database) (chatID queueID : Int)
    (stmtErr : Bool) : Database × Bool :=
  if stmtErr then (d, false)
  else
    ({ d with
       queue := d.queue.map (fun r =>
         if matchKey chatID queueID r then { r with numTries := r.numTries + 1 } else r) },
     d.queue.any (matchKey chatID queueID))

/-- `MarkQueueItemAsDelivered`: `update queue set delivered_on = ? where
id = ? and chat_id = ?` with the current unix time; returns `true` only
when the statement succeeded and `RowsAffected > 0`.  Note the `where`
clause has no `delivered_on is null` condition: an already-delivered row
still matches and its `delivered_on` is set again. -/
def MarkQueueItemAsDelivered (d : Database) (chatID queueID : Int)
    (now : Int) (stmtErr : Bool) : Database × Bool :=
  if stmtErr then (d, false)
  else
    ({ d with
       queue := d.queue.map (fun r =>
         if matchKey chatID queueID r then { r with deliveredOn := some now } else r) },
     d.queue.any (matchKey chatID queueID))

/-- Iterating `IncreaseNumTries` (success path) `n` times on the same
`(chat_id, id)` key. -/
def incIter (chatID queueID : Int) : Nat → Database → Database
  | 0, d => d
  | n + 1, d => incIter chatID queueID n (IncreaseNumTries d chatID queueID false).fst

/-- The calls a scheduler task makes back into the store for one
candidate. -/
inductive StoreCall where
  | markDelivered (chatID queueID : Int)
  | incrementTries (chatID queueID : Int)
deriving DecidableEq

/-- The body of the per-candidate goroutine in `processQueue`
(`src/main.go`): send the message; on success call
`MarkQueueItemAsDelivered`, on failure only log; then unconditionally call
`IncreaseNumTries`.  `sent` is the `sent.Ok` outcome of
`client.SendMessage`. -/
def processItem (sent : Bool) (q : QueueItem) : List StoreCall :=
  (if sent then [StoreCall.markDelivered q.ChatID q.ID] else [])
    ++ [StoreCall.incrementTries q.ChatID q.ID]

/-- `processQueue`: one store-call trace per candidate of the cycle,
`send q` giving the Notifier outcome for candidate `q`. -/
def processQueue (send : QueueItem → Bool) (queue : List QueueItem) :
    List (List StoreCall) :=
  queue.map (fun q => processItem (send q) q)

/-! ## Helper lemmas -/

theorem deliverableP_iff (maxN now : Int) (r : Row) :
    deliverableP maxN now r = true ↔
      r.deliveredOn = none ∧ r.numTries < maxN ∧ r.fireOn ≤ now := by
  simp [deliverableP, Option.isNone_iff_eq_none, and_assoc]

theorem undeliveredP_iff (chatID : Int) (r : Row) :
    undeliveredP chatID r = true ↔ r.chatId = chatID ∧ r.deliveredOn = none := by
  simp [undeliveredP, Option.isNone_iff_eq_none]

theorem mem_deliverableRows (d : Database) (maxNumTries now : Int) (r : Row)
    (h : 0 < maxNumTries) :
    r ∈ deliverableRows d maxNumTries now ↔
      r ∈ d.queue ∧ r.deliveredOn = none ∧ r.numTries < maxNumTries ∧ r.fireOn ≤ now := by
  have hn : ¬ maxNumTries ≤ 0 := not_le.mpr h
  rw [deliverableRows]
  simp only [hn, if_false, List.mem_insertionSort, List.mem_filter, deliverableP_iff]

theorem sorted_deliverableRows (d : Database) (maxNumTries now : Int) :
    List.Sorted enqDesc (deliverableRows d maxNumTries now) := by
  rw [deliverableRows]
  exact List.sorted_insertionSort enqDesc _

theorem mem_undeliveredRows (d : Database) (chatID : Int) (r : Row) :
    r ∈ undeliveredRows d chatID ↔
      r ∈ d.queue ∧ r.chatId = chatID ∧ r.deliveredOn = none := by
  rw [undeliveredRows]
  simp only [List.mem_insertionSort, List.mem_filter, undeliveredP_iff]

theorem sorted_undeliveredRows (d : Database) (chatID : Int) :
    List.Sorted enqDesc (undeliveredRows d chatID) :=
  List.sorted_insertionSort enqDesc _

/-! ## C4 -/

/-- C4: for `maxTries > 0`, `DeliverableQueueItems` selects exactly the
stored rows with `delivered_on` null, `num_tries < maxTries` and
`fire_on ≤ now`, sorted by `enqueued_on` descending, and returns their
scanned images. -/
theorem deliverable_exact (d : Database) (maxTries now : Int) (r : Row)
    (h : 0 < maxTries) :
    (r ∈ deliverableRows d maxTries now ↔
      r ∈ d.queue ∧ r.deliveredOn = none ∧ r.numTries < maxTries ∧ r.fireOn ≤ now)
    ∧ List.Sorted enqDesc (deliverableRows d maxTries now)
    ∧ DeliverableQueueItems d maxTries now false =
        (deliverableRows d maxTries now).map rowToItem := by
  refine ⟨mem_deliverableRows d maxTries now r h, sorted_deliverableRows d maxTries now, ?_⟩
  simp [DeliverableQueueItems]

/-- Witness for `deliverable_exact` at a concrete store. -/
theorem deliverable_exact_witness :
    0 < (3 : Int) ∧
    ((⟨1, 42, "pay rent", 5, 80, none, 0⟩ ∈
        deliverableRows ⟨[⟨1, 42, "pay rent", 5, 80, none, 0⟩,
                          ⟨2, 42, "late", 6, 200, none, 0⟩,
                          ⟨3, 42, "tried", 7, 80, none, 5⟩], 4, [], 1⟩ 3 100 ↔
      ⟨1, 42, "pay rent", 5, 80, none, 0⟩ ∈
        ([⟨1, 42, "pay rent", 5, 80, none, 0⟩,
          ⟨2, 42, "late", 6, 200, none, 0⟩,
          ⟨3, 42, "tried", 7, 80, none, 5⟩] : List Row) ∧
      (⟨1, 42, "pay rent", 5, 80, none, 0⟩ : Row).deliveredOn = none ∧
      (⟨1, 42, "pay rent", 5, 80, none, 0⟩ : Row).numTries < 3 ∧
      (⟨1, 42, "pay rent", 5, 80, none, 0⟩ : Row).fireOn ≤ 100)
    ∧ List.Sorted enqDesc
        (deliverableRows ⟨[⟨1, 42, "pay rent", 5, 80, none, 0⟩,
                           ⟨2, 42, "late", 6, 200, none, 0⟩,
                           ⟨3, 42, "tried", 7, 80, none, 5⟩], 4, [], 1⟩ 3 100)
    ∧ DeliverableQueueItems ⟨[⟨1, 42, "pay rent", 5, 80, none, 0⟩,
                              ⟨2, 42, "late", 6, 200, none, 0⟩,
                              ⟨3, 42, "tried", 7, 80, none, 5⟩], 4, [], 1⟩ 3 100 false =
        (deliverableRows ⟨[⟨1, 42, "pay rent", 5, 80, none, 0⟩,
                           ⟨2, 42, "late", 6, 200, none, 0⟩,
                           ⟨3, 42, "tried", 7, 80, none, 5⟩], 4, [], 1⟩ 3 100).map rowToItem) :=
  ⟨by decide,
   deliverable_exact ⟨[⟨1, 42, "pay rent", 5, 80, none, 0⟩,
                       ⟨2, 42, "late", 6, 200, none, 0⟩,
                       ⟨3, 42, "tried", 7, 80, none, 5⟩], 4, [], 1⟩ 3 100
     ⟨1, 42, "pay rent", 5, 80, none, 0⟩ (by decide)⟩

/-! ## C7 -/

/-- C7: `UndeliveredQueueItems` selects exactly the stored rows of the
given chat with `delivered_on` null — with no condition on `num_tries`,
so a retry-exhausted undelivered row is still included — sorted by
`enqueued_on` descending. -/
theorem undelivered_exact (d : Database) (chatID : Int) (r : Row) :
    (r ∈ undeliveredRows d chatID ↔
      r ∈ d.queue ∧ r.chatId = chatID ∧ r.deliveredOn = none)
    ∧ List.Sorted enqDesc (undeliveredRows d chatID)
    ∧ UndeliveredQueueItems d chatID false =
        (undeliveredRows d chatID).map rowToItem := by
  refine ⟨mem_undeliveredRows d chatID r, sorted_undeliveredRows d chatID, ?_⟩
  simp [UndeliveredQueueItems]

/-! ## C8 -/

/-- C8: a non-positive `maxNumTries` argument is replaced by the default
ceiling 10, so the call behaves exactly like a call with 10 and filters
with `num_tries < 10`. -/
theorem deliverable_default_ceiling (d : Database) (maxTries now : Int) (r : Row)
    (stmtErr : Bool) (h : maxTries ≤ 0) :
    DeliverableQueueItems d maxTries now stmtErr = DeliverableQueueItems d 10 now stmtErr
    ∧ (r ∈ deliverableRows d maxTries now ↔
        r ∈ d.queue ∧ r.deliveredOn = none ∧ r.numTries < 10 ∧ r.fireOn ≤ now) := by
  have hrows : deliverableRows d maxTries now = deliverableRows d 10 now := by
    rw [deliverableRows, deliverableRows]
    norm_num [h, defaultMaxNumTries]
  constructor
  · rw [DeliverableQueueItems, DeliverableQueueItems, hrows]
  · rw [hrows]
    exact mem_deliverableRows d 10 now r (by norm_num)

/-- Witness for `deliverable_default_ceiling` at a concrete store. -/
theorem deliverable_default_ceiling_witness :
    (0 : Int) ≤ 0 ∧
    (DeliverableQueueItems ⟨[⟨1, 42, "m", 5, 7, none, 9⟩], 2, [], 1⟩ 0 100 false =
       DeliverableQueueItems ⟨[⟨1, 42, "m", 5, 7, none, 9⟩], 2, [], 1⟩ 10 100 false
     ∧ (⟨1, 42, "m", 5, 7, none, 9⟩ ∈
          deliverableRows ⟨[⟨1, 42, "m", 5, 7, none, 9⟩], 2, [], 1⟩ 0 100 ↔
        ⟨1, 42, "m", 5, 7, none, 9⟩ ∈
          ([⟨1, 42, "m", 5, 7, none, 9⟩] : List Row) ∧
        (⟨1, 42, "m", 5, 7, none, 9⟩ : Row).deliveredOn = none ∧
        (⟨1, 42, "m", 5, 7, none, 9⟩ : Row).numTries < 10 ∧
        (⟨1, 42, "m", 5, 7, none, 9⟩ : Row).fireOn ≤ 100)) :=
  ⟨by decide,
   deliverable_default_ceiling ⟨[⟨1, 42, "m", 5, 7, none, 9⟩], 2, [], 1⟩ 0 100
     ⟨1, 42, "m", 5, 7, none, 9⟩ false (by decide)⟩

/-! ## C9 -/

/-- C9: every item returned by `DeliverableQueueItems` or
`UndeliveredQueueItems` has `NumTries = 0`, whatever the stored
`num_tries` is, because neither query selects the `num_tries` column. -/
theorem returned_numTries_zero (d : Database) (maxTries now chatID : Int)
    (q : QueueItem) :
    (q ∈ DeliverableQueueItems d maxTries now false → q.NumTries = 0)
    ∧ (q ∈ UndeliveredQueueItems d chatID false → q.NumTries = 0) := by
  constructor
  · intro hq
    simp only [DeliverableQueueItems, Bool.false_eq_true, if_false, List.nil_append,
      List.mem_map] at hq
    obtain ⟨r, -, rfl⟩ := hq
    rfl
  · intro hq
    simp only [UndeliveredQueueItems, Bool.false_eq_true, if_false, List.nil_append,
      List.mem_map] at hq
    obtain ⟨r, -, rfl⟩ := hq
    rfl

/-- Witness for `returned_numTries_zero`: a stored row with
`num_tries = 7` comes back with `NumTries = 0`. -/
theorem returned_numTries_zero_witness :
    (⟨1, 42, "m", 5, 7, 0, 0⟩ : QueueItem) ∈
      DeliverableQueueItems ⟨[⟨1, 42, "m", 5, 7, none, 7⟩], 2, [], 1⟩ 10 100 false
    ∧ (⟨1, 42, "m", 5, 7, 0, 0⟩ : QueueItem).NumTries = 0 :=
  ⟨by decide,
   (returned_numTries_zero ⟨[⟨1, 42, "m", 5, 7, none, 7⟩], 2, [], 1⟩ 10 100 42
     ⟨1, 42, "m", 5, 7, 0, 0⟩).1 (by decide)⟩

/-! ## C6 -/

theorem matchKey_set_numTries (c i : Int) (r : Row) (x : Int) :
    matchKey c i { r with numTries := x } = matchKey c i r := rfl

theorem incIter_queue (c i : Int) : ∀ (n : Nat) (d : Database),
    (incIter c i n d).queue =
      d.queue.map (fun r =>
        if matchKey c i r then { r with numTries := r.numTries + (n : Int) } else r)
  | 0, d => by
    rw [incIter]
    have : (fun r =>
        if matchKey c i r then { r with numTries := r.numTries + ((0 : Nat) : Int) } else r) =
        fun r : Row => r := by
      funext r
      split <;> simp
    rw [this]
    simp
  | n + 1, d => by
    rw [incIter, incIter_queue c i n]
    have hstep : ((IncreaseNumTries d c i false).fst).queue =
        d.queue.map (fun r =>
          if matchKey c i r then { r with numTries := r.numTries + 1 } else r) := rfl
    rw [hstep, List.map_map]
    congr 1
    funext r
    by_cases h : matchKey c i r <;>
      simp only [Function.comp_apply, h, if_true, if_false, matchKey_set_numTries] <;>
      simp [h]
    ring

/-- C6: starting from a stored row with `num_tries = 0`, applying
`IncreaseNumTries` on its `(chat_id, id)` key `N` times yields the row
with `num_tries = N`; no row's `num_tries` ever decreases under the
iteration; and once `N ≥ maxTries` the updated row is excluded from
`DeliverableQueueItems`'s selection even though `delivered_on` is still
null.  (`MarkQueueItemAsDelivered` touches only `delivered_on`, `Enqueue`
only appends a fresh row with `num_tries = 0` and `DeleteQueueItem` only
removes rows, so the final conjunct — marking preserves every row's
`num_tries` — completes "`numTries` never decreases".) -/
theorem numTries_counts_and_ceiling_excludes (d : Database) (r : Row)
    (N : Nat) (maxTries now : Int)
    (hr : r ∈ d.queue) (h0 : r.numTries = 0)
    (hpos : 0 < maxTries) (hN : maxTries ≤ (N : Int)) :
    ({ r with numTries := (N : Int) } ∈ (incIter r.chatId r.id N d).queue)
    ∧ (∀ s ∈ d.queue, ∃ t ∈ (incIter r.chatId r.id N d).queue, s.numTries ≤ t.numTries)
    ∧ { r with numTries := (N : Int) } ∉ deliverableRows (incIter r.chatId r.id N d) maxTries now
    ∧ (∀ c i t : Int,
        (MarkQueueItemAsDelivered d c i t false).fst.queue.map (fun s => s.numTries) =
          d.queue.map (fun s => s.numTries)) := by
  rw [incIter_queue]
  have hself : matchKey r.chatId r.id r = true := by simp [matchKey]
  refine ⟨?_, ?_, ?_, ?_⟩
  · refine List.mem_map.mpr ⟨r, hr, ?_⟩
    rw [if_pos hself]
    simp only [h0, zero_add]
  · intro s hs
    refine ⟨_, List.mem_map.mpr ⟨s, hs, rfl⟩, ?_⟩
    by_cases h : matchKey r.chatId r.id s = true
    · rw [if_pos h]
      exact le_add_of_nonneg_right (Int.natCast_nonneg N)
    · rw [if_neg h]
  · intro hmem
    have hlt := ((mem_deliverableRows _ maxTries now _ hpos).mp hmem).2.2.1
    simp only at hlt
    omega
  · intro c i t
    have hstep : (MarkQueueItemAsDelivered d c i t false).fst.queue =
        d.queue.map (fun s =>
          if matchKey c i s then { s with deliveredOn := some t } else s) := rfl
    rw [hstep, List.map_map]
    congr 1
    funext s
    by_cases h : matchKey c i s = true
    · rw [Function.comp_apply, if_pos h]
    · rw [Function.comp_apply, if_neg h]

/-- Witness for `numTries_counts_and_ceiling_excludes` at a concrete
store: three increments on a fresh row reach the ceiling 3. -/
theorem numTries_counts_and_ceiling_excludes_witness :
    ((⟨1, 42, "m", 5, 7, none, 0⟩ : Row) ∈
        (⟨[⟨1, 42, "m", 5, 7, none, 0⟩], 2, [], 1⟩ : Database).queue
      ∧ (⟨1, 42, "m", 5, 7, none, 0⟩ : Row).numTries = 0
      ∧ (0 : Int) < 3 ∧ (3 : Int) ≤ ((3 : Nat) : Int))
    ∧ (({ (⟨1, 42, "m", 5, 7, none, 0⟩ : Row) with numTries := ((3 : Nat) : Int) } ∈
          (incIter 42 1 3 ⟨[⟨1, 42, "m", 5, 7, none, 0⟩], 2, [], 1⟩).queue)
       ∧ (∀ s ∈ (⟨[⟨1, 42, "m", 5, 7, none, 0⟩], 2, [], 1⟩ : Database).queue,
            ∃ t ∈ (incIter 42 1 3 ⟨[⟨1, 42, "m", 5, 7, none, 0⟩], 2, [], 1⟩).queue,
              s.numTries ≤ t.numTries)
       ∧ { (⟨1, 42, "m", 5, 7, none, 0⟩ : Row) with numTries := ((3 : Nat) : Int) } ∉
           deliverableRows (incIter 42 1 3 ⟨[⟨1, 42, "m", 5, 7, none, 0⟩], 2, [], 1⟩) 3 100
       ∧ (∀ c i t : Int,
            (MarkQueueItemAsDelivered ⟨[⟨1, 42, "m", 5, 7, none, 0⟩], 2, [], 1⟩ c i t false).fst.queue.map
                (fun s => s.numTries) =
              (⟨[⟨1, 42, "m", 5, 7, none, 0⟩], 2, [], 1⟩ : Database).queue.map (fun s => s.numTries))) :=
  ⟨⟨by decide, by decide, by decide, by decide⟩,
   numTries_counts_and_ceiling_excludes ⟨[⟨1, 42, "m", 5, 7, none, 0⟩], 2, [], 1⟩
     ⟨1, 42, "m", 5, 7, none, 0⟩ 3 3 100 (by decide) (by decide) (by decide) (by decide)⟩

/-! ## C5 -/

/-- C5: for every candidate of a cycle, the goroutine body issues exactly
one `IncreaseNumTries` call whatever the send outcome was, and issues a
`MarkQueueItemAsDelivered` call if and only if the send succeeded. -/
theorem scheduler_calls_per_candidate (send : QueueItem → Bool)
    (queue : List QueueItem) (q : QueueItem) (hq : q ∈ queue) :
    processItem (send q) q ∈ processQueue send queue
    ∧ (processItem (send q) q).count (StoreCall.incrementTries q.ChatID q.ID) = 1
    ∧ (StoreCall.markDelivered q.ChatID q.ID ∈ processItem (send q) q ↔ send q = true) := by
  refine ⟨List.mem_map.mpr ⟨q, hq, rfl⟩, ?_, ?_⟩
  · cases hsend : send q <;> simp [processItem, List.count_cons]
  · cases hsend : send q <;> simp [processItem]

/-- Witness for `scheduler_calls_per_candidate` with one candidate whose
send succeeds. -/
theorem scheduler_calls_per_candidate_witness :
    (⟨1, 42, "m", 5, 7, 0, 0⟩ : QueueItem) ∈ [(⟨1, 42, "m", 5, 7, 0, 0⟩ : QueueItem)]
    ∧ (processItem ((fun _ => true) (⟨1, 42, "m", 5, 7, 0, 0⟩ : QueueItem)) ⟨1, 42, "m", 5, 7, 0, 0⟩ ∈
         processQueue (fun _ => true) [⟨1, 42, "m", 5, 7, 0, 0⟩]
       ∧ (processItem ((fun _ => true) (⟨1, 42, "m", 5, 7, 0, 0⟩ : QueueItem)) ⟨1, 42, "m", 5, 7, 0, 0⟩).count
           (StoreCall.incrementTries 42 1) = 1
       ∧ (StoreCall.markDelivered 42 1 ∈
            processItem ((fun _ => true) (⟨1, 42, "m", 5, 7, 0, 0⟩ : QueueItem)) ⟨1, 42, "m", 5, 7, 0, 0⟩ ↔
          (fun _ => true) (⟨1, 42, "m", 5, 7, 0, 0⟩ : QueueItem) = true)) :=
  ⟨by decide,
   scheduler_calls_per_candidate (fun _ => true) [⟨1, 42, "m", 5, 7, 0, 0⟩]
     ⟨1, 42, "m", 5, 7, 0, 0⟩ (by decide)⟩

/-! ## C2 -/

/-- C2 fails on the code: `MarkQueueItemAsDelivered`'s update has no
`delivered_on is null` condition.  On a record delivered at time 10, a
second call at time 20 overwrites `delivered_on` to 20 (it is not left
unchanged) and still reports `true`. -/
theorem markDelivered_overwrites_counterexample :
    (MarkQueueItemAsDelivered ⟨[⟨1, 42, "m", 5, 7, none, 0⟩], 2, [], 1⟩ 42 1 10 false).fst.queue
      = [⟨1, 42, "m", 5, 7, some 10, 0⟩]
    ∧ (MarkQueueItemAsDelivered
         (MarkQueueItemAsDelivered ⟨[⟨1, 42, "m", 5, 7, none, 0⟩], 2, [], 1⟩ 42 1 10 false).fst
         42 1 20 false).fst.queue = [⟨1, 42, "m", 5, 7, some 20, 0⟩]
    ∧ (MarkQueueItemAsDelivered
         (MarkQueueItemAsDelivered ⟨[⟨1, 42, "m", 5, 7, none, 0⟩], 2, [], 1⟩ 42 1 10 false).fst
         42 1 20 false).snd = true
    ∧ ([⟨1, 42, "m", 5, 7, some 20, 0⟩] : List Row) ≠ [⟨1, 42, "m", 5, 7, some 10, 0⟩] := by
  refine ⟨rfl, rfl, rfl, by decide⟩

/-- C2 (amended): the `where` clause matches on `(id, chat_id)` only, so
a `MarkQueueItemAsDelivered` call on an already-delivered record matches
it again, overwrites `delivered_on` with the new current time and returns
`true` — last-write-wins, not first-write-wins. -/
theorem markDelivered_last_write_wins (d : Database) (r : Row) (t1 now : Int)
    (hr : r ∈ d.queue) (_hdel : r.deliveredOn = some t1) :
    ({ r with deliveredOn := some now } ∈
        (MarkQueueItemAsDelivered d r.chatId r.id now false).fst.queue)
    ∧ (MarkQueueItemAsDelivered d r.chatId r.id now false).snd = true := by
  have hself : matchKey r.chatId r.id r = true := by simp [matchKey]
  constructor
  · refine List.mem_map.mpr ⟨r, hr, ?_⟩
    rw [if_pos hself]
  · exact List.any_eq_true.mpr ⟨r, hr, hself⟩

/-- Witness for `markDelivered_last_write_wins`. -/
theorem markDelivered_last_write_wins_witness :
    ((⟨1, 42, "m", 5, 7, some 10, 3⟩ : Row) ∈
        (⟨[⟨1, 42, "m", 5, 7, some 10, 3⟩], 2, [], 1⟩ : Database).queue
      ∧ (⟨1, 42, "m", 5, 7, some 10, 3⟩ : Row).deliveredOn = some 10)
    ∧ (({ (⟨1, 42, "m", 5, 7, some 10, 3⟩ : Row) with deliveredOn := some 20 } ∈
          (MarkQueueItemAsDelivered ⟨[⟨1, 42, "m", 5, 7, some 10, 3⟩], 2, [], 1⟩ 42 1 20 false).fst.queue)
       ∧ (MarkQueueItemAsDelivered ⟨[⟨1, 42, "m", 5, 7, some 10, 3⟩], 2, [], 1⟩ 42 1 20 false).snd = true) :=
  ⟨⟨by decide, by decide⟩,
   markDelivered_last_write_wins ⟨[⟨1, 42, "m", 5, 7, some 10, 3⟩], 2, [], 1⟩
     ⟨1, 42, "m", 5, 7, some 10, 3⟩ 10 20 (by decide) (by decide)⟩

/-! ## C3 -/

/-- C3 fails on the code: `DeleteQueueItem` never consults
`RowsAffected`.  Deleting `(chatID := 2, id := 5)` when the only stored
row has `chat_id = 1` matches nothing and leaves the row in place — yet
the call returns `true`, not `false`. -/
theorem delete_no_match_returns_true_counterexample :
    (DeleteQueueItem ⟨[⟨5, 1, "m", 5, 7, none, 0⟩], 6, [], 1⟩ 2 5 false).snd = true
    ∧ (DeleteQueueItem ⟨[⟨5, 1, "m", 5, 7, none, 0⟩], 6, [], 1⟩ 2 5 false).fst.queue
        = [⟨5, 1, "m", 5, 7, none, 0⟩] := by
  refine ⟨rfl, by decide⟩

/-- C3 (amended): `DeleteQueueItem` removes exactly the rows matching
both `id` and `chat_id`, and absent a storage error it returns `true`
even when zero rows matched; in particular, with a key matching no row
(e.g. a mismatched destination) it leaves the store unchanged and still
returns `true`. -/
theorem delete_mismatch_noop_still_true (d : Database) (chatID queueID : Int)
    (h : ∀ s ∈ d.queue, ¬(s.id = queueID ∧ s.chatId = chatID)) :
    (DeleteQueueItem d chatID queueID false).fst = d
    ∧ (DeleteQueueItem d chatID queueID false).snd = true := by
  refine ⟨?_, rfl⟩
  have hfil : d.queue.filter (fun r => !(matchKey chatID queueID r)) = d.queue := by
    apply List.filter_eq_self.mpr
    intro s hs
    have hne := h s hs
    simp [matchKey]
    tauto
  simp only [DeleteQueueItem, Bool.false_eq_true, if_false]
  rw [hfil]

/-- Witness for `delete_mismatch_noop_still_true`. -/
theorem delete_mismatch_noop_still_true_witness :
    (∀ s ∈ (⟨[⟨5, 1, "m", 5, 7, none, 0⟩], 6, [], 1⟩ : Database).queue,
        ¬(s.id = 5 ∧ s.chatId = 2))
    ∧ ((DeleteQueueItem ⟨[⟨5, 1, "m", 5, 7, none, 0⟩], 6, [], 1⟩ 2 5 false).fst
         = ⟨[⟨5, 1, "m", 5, 7, none, 0⟩], 6, [], 1⟩
       ∧ (DeleteQueueItem ⟨[⟨5, 1, "m", 5, 7, none, 0⟩], 6, [], 1⟩ 2 5 false).snd = true) :=
  ⟨by decide,
   delete_mismatch_noop_still_true ⟨[⟨5, 1, "m", 5, 7, none, 0⟩], 6, [], 1⟩ 2 5 (by decide)⟩

/-! ## C1 -/

/-- C1 fails on the code: the `queue` schema has no unique constraint
over `(chat_id, message, fire_on)`, so `insert or ignore` never ignores
anything.  Two `Enqueue` calls with the identical tuple
`(42, "pay rent", 100)` on a fresh store produce TWO rows with that
tuple (with fresh primary keys 1 and 2), not one. -/
theorem enqueue_duplicate_not_ignored :
    (Enqueue (Enqueue ⟨[], 1, [], 1⟩ 42 "pay rent" 100 50 false).fst
        42 "pay rent" 100 50 false).fst.queue
      = [⟨1, 42, "pay rent", 50, 100, none, 0⟩, ⟨2, 42, "pay rent", 50, 100, none, 0⟩]
    ∧ ((Enqueue (Enqueue ⟨[], 1, [], 1⟩ 42 "pay rent" 100 50 false).fst
          42 "pay rent" 100 50 false).fst.queue.filter
        (fun r => r.chatId == 42 && r.message == "pay rent" && r.fireOn == 100)).length = 2 := by
  refine ⟨by decide, by decide⟩

/-! ## C10 -/

/-- C10: on a statement-preparation or query failure every read operation
returns the initially allocated empty slice — the same value the success
path returns on a store holding no matching data. -/
theorem read_error_yields_empty (d d' : Database)
    (latestN maxTries now chatID : Int)
    (hq : d'.queue = []) (hl : d'.logs = []) :
    GetLogs d latestN true = []
    ∧ DeliverableQueueItems d maxTries now true = []
    ∧ UndeliveredQueueItems d chatID true = []
    ∧ GetLogs d latestN true = GetLogs d' latestN false
    ∧ DeliverableQueueItems d maxTries now true = DeliverableQueueItems d' maxTries now false
    ∧ UndeliveredQueueItems d chatID true = UndeliveredQueueItems d' chatID false := by
  refine ⟨rfl, rfl, rfl, ?_, ?_, ?_⟩
  · simp [GetLogs, hl, sqlLimit]
  · simp [DeliverableQueueItems, deliverableRows, hq]
  · simp [UndeliveredQueueItems, undeliveredRows, hq]

/-- Witness for `read_error_yields_empty`. -/
theorem read_error_yields_empty_witness :
    ((⟨[], 7, [], 9⟩ : Database).queue = [] ∧ (⟨[], 7, [], 9⟩ : Database).logs = [])
    ∧ (GetLogs ⟨[⟨1, 42, "m", 5, 7, none, 0⟩], 2, [⟨1, "log", "x", 3⟩], 2⟩ 5 true = []
       ∧ DeliverableQueueItems ⟨[⟨1, 42, "m", 5, 7, none, 0⟩], 2, [⟨1, "log", "x", 3⟩], 2⟩ 10 100 true = []
       ∧ UndeliveredQueueItems ⟨[⟨1, 42, "m", 5, 7, none, 0⟩], 2, [⟨1, "log", "x", 3⟩], 2⟩ 42 true = []
       ∧ GetLogs ⟨[⟨1, 42, "m", 5, 7, none, 0⟩], 2, [⟨1, "log", "x", 3⟩], 2⟩ 5 true =
           GetLogs ⟨[], 7, [], 9⟩ 5 false
       ∧ DeliverableQueueItems ⟨[⟨1, 42, "m", 5, 7, none, 0⟩], 2, [⟨1, "log", "x", 3⟩], 2⟩ 10 100 true =
           DeliverableQueueItems ⟨[], 7, [], 9⟩ 10 100 false
       ∧ UndeliveredQueueItems ⟨[⟨1, 42, "m", 5, 7, none, 0⟩], 2, [⟨1, "log", "x", 3⟩], 2⟩ 42 true =
           UndeliveredQueueItems ⟨[], 7, [], 9⟩ 42 false) :=
  ⟨⟨rfl, rfl⟩,
   read_error_yields_empty ⟨[⟨1, 42, "m", 5, 7, none, 0⟩], 2, [⟨1, "log", "x", 3⟩], 2⟩
     ⟨[], 7, [], 9⟩ 5 10 100 42 rfl rfl⟩
